/-
Verification of the Nigerian-foods dashboard (`app.py`) against its
natural-language specification.

The dashboard's operations are shallowly embedded here:
  * the dataset rows (`Row`) — the static table itself lives in `food.py`,
    which the repository's `src/` does not contain, so the row shape is
    modelled from the spec's data model (all fields plain strings / a
    rational score, no missing values);
  * the sidebar filter (`filteredDf`), including the fact that
    `Series.str.contains` interprets the query as a regular expression
    (the code leaves `regex=True` at its default); the regex model
    (`reSearch`) covers the literal-and-dot fragment of Python regexes,
    which is the fragment every theorem below stays inside;
  * the metric cards (`avg_score`), the per-region aggregation
    (`region_df`), the derived views (icon column, sorts, top-10);
  * the 7-day meal-plan generator (`generate_day_meal`, `mkPlan`) with
    `random.choice` abstracted by an arbitrary index stream, and the
    daily-score recomputation (`dailyScore`) with Python's
    `str.split`/`str.join` semantics (`splitPlus`, `joinPlus`,
    `afterFirstSpace`);
  * a small heap of dataframe cells (`Cell`, `runScript`) making the
    copy-vs-in-place behaviour of the script explicit, to state that the
    source dataset is never mutated.
-/
import Mathlib

set_option linter.unusedVariables false

/-- Modelled from the spec: the repository imports the dataset from
`food.py`, which is not among the source files; the spec's data model
(section 3) gives a single entity FoodItem with columns Food, Category,
Region, Anti_Inflam (numeric score) and Notes, with no missing values. -/
structure Row where
  Food : String
  Category : String
  Region : String
  Anti_Inflam : Rat
  Notes : String
deriving DecidableEq

/-! ### The query model of `Series.str.contains` (regex: literals and dot) -/

/-- An atom of the literal-and-dot fragment of Python regular expressions. -/
inductive RAtom where
  | dot
  | lit (c : Char)
deriving DecidableEq

/-- Whether one pattern atom matches one character, under `re.IGNORECASE`
(Python's `.` does not match a newline). -/
def atomMatch : RAtom → Char → Bool
  | .dot, c => c != '\n'
  | .lit a, c => a.toLower == c.toLower

/-- Whether the pattern matches at the very start of the text. -/
def matchAt : List RAtom → List Char → Bool
  | [], _ => true
  | _ :: _, [] => false
  | a :: p, c :: l => atomMatch a c && matchAt p l

/-- `re.search`: whether the pattern matches anywhere in the text. -/
def reSearch (p : List RAtom) : List Char → Bool
  | [] => matchAt p []
  | c :: l => matchAt p (c :: l) || reSearch p l

/-- Compile a query string into the literal-and-dot fragment: `.` becomes
the wildcard, every other character a literal. -/
def parsePat (q : String) : List RAtom :=
  q.data.map (fun c => if c = '.' then RAtom.dot else RAtom.lit c)

/-- `s.str.contains(q, case=False, na=False)` on a present value:
case-insensitive regex search of `q` in `s`. -/
def pyContainsCI (s q : String) : Bool :=
  reSearch (parsePat q) s.data

/-- The characters Python's `re` treats specially. -/
def isRegexMetaChar (c : Char) : Bool :=
  c ∈ ['.', '^', '$', '*', '+', '?', '\x7b', '\x7d', '[', ']', '\\', '|', '(', ')']

/-- A query free of regex metacharacters. -/
def noRegexMeta (q : String) : Bool :=
  q.data.all (fun c => !(isRegexMetaChar c))

/-- Spec-side helper: `needle` occurs as a contiguous sublist of `hay`. -/
def isSubstr (needle : List Char) : List Char → Bool
  | [] => needle.isEmpty
  | c :: l => needle.isPrefixOf (c :: l) || isSubstr needle l

/-- Spec-side matching: the query is a case-insensitive substring. -/
def containsCI (s q : String) : Bool :=
  isSubstr (q.data.map Char.toLower) (s.data.map Char.toLower)

/-! ### The sidebar filter -/

/-- `app.py` lines 65–70: keep the rows whose Region and Category are
selected and whose Food or Notes matches the search text. -/
def filteredDf (db : List Row) (selR selC : List String) (q : String) : List Row :=
  db.filter (fun r =>
    selR.contains r.Region && selC.contains r.Category &&
      (pyContainsCI r.Food q || pyContainsCI r.Notes q))

/-- `pd.unique`: first occurrence of each value, in order of appearance. -/
def uniqueAux (seen : List String) : List String → List String
  | [] => []
  | x :: xs => if x ∈ seen then uniqueAux seen xs else x :: uniqueAux (x :: seen) xs

def uniqueFirst (l : List String) : List String := uniqueAux [] l

/-- `sorted(df['Region'].dropna().unique())` (the model has no missing
values, so `dropna` is the identity). -/
def regionsOf (db : List Row) : List String :=
  (uniqueFirst (db.map Row.Region)).insertionSort (· ≤ ·)

/-- `sorted(df['Category'].dropna().unique())`. -/
def categoriesOf (db : List Row) : List String :=
  (uniqueFirst (db.map Row.Category)).insertionSort (· ≤ ·)

/-! ### Metric card -/

/-- Python's `round` to an integer: round half to even. -/
def roundHalfEven (q : Rat) : Int :=
  let f := q.floor
  let r := q - f
  if r < 1/2 then f
  else if 1/2 < r then f + 1
  else if f % 2 = 0 then f else f + 1

/-- `round(x, 1)`. -/
def round1 (q : Rat) : Rat := (roundHalfEven (q * 10) : Rat) / 10

/-- `app.py` line 89: `round(filtered_df['Anti_Inflam'].mean(),1) if
len(filtered_df) else 0`. -/
def avg_score (l : List Row) : Rat :=
  if l.length ≠ 0 then round1 (((l.map Row.Anti_Inflam).sum) / (l.length : Rat))
  else 0

/-! ### Per-region aggregation for the bar chart -/

/-- `app.py` lines 109–112: group by Region (keys sorted, as pandas
`groupby` does), count the foods and join the notes with `", "`. -/
def region_df (l : List Row) : List (String × Nat × String) :=
  ((uniqueFirst (l.map Row.Region)).insertionSort (· ≤ ·)).map (fun g =>
    (g, (l.filter (fun r => r.Region == g)).length,
      String.intercalate ", " ((l.filter (fun r => r.Region == g)).map Row.Notes)))

/-! ### Derived views (icon column, sorts, top-10) -/

/-- `app.py` lines 43–50. -/
def category_icons : List (String × String) :=
  [("Carbohydrates", "🍞"), ("Proteins", "🍗"), ("Vegetables", "🥦"),
   ("Fruits", "🍎"), ("Nuts & Seeds", "🥜"), ("Spices & Herbs", "🌿")]

/-- `filtered_df['Category'].map(category_icons).fillna('🍽️')` for one row. -/
def iconFor (cat : String) : String :=
  (category_icons.lookup cat).getD "🍽️"

/-- `app.py` line 73: attach the Icon column. -/
def addIconColumn (l : List Row) : List (Row × String) :=
  l.map (fun r => (r, iconFor r.Category))

/-- `sort_values('Food')` on the iconed frame. -/
def sortByFood (l : List (Row × String)) : List (Row × String) :=
  l.insertionSort (fun a b => a.1.Food ≤ b.1.Food)

/-- `sort_values(by="Anti_Inflam", ascending=False)`. -/
def sortByScoreDesc (l : List (Row × String)) : List (Row × String) :=
  l.insertionSort (fun a b => b.1.Anti_Inflam ≤ a.1.Anti_Inflam)

/-- `app.py` line 105: `top_foods['Food'] = top_foods['Icon'] + ' ' + top_foods['Food']`. -/
def prependIconToFood (l : List (Row × String)) : List (Row × String) :=
  l.map (fun p => ({ p.1 with Food := p.2 ++ " " ++ p.1.Food }, p.2))

/-! ### The meal-plan generator -/

structure DayMeal where
  Breakfast : String
  Lunch : String
  Dinner : String
  Snack : String
deriving DecidableEq

/-- `random.choice(l)`: raises (`none`) on an empty list, otherwise returns
the element at an arbitrary index `k % l.length` — the index stream stands
in for the random draws. -/
def randomChoice (k : Nat) (l : List String) : Option String :=
  l[k % l.length]?

/-- The Breakfast slot of `generate_day_meal`: carb + fruit if both
categories are present, otherwise blank. -/
def slotBreakfast (carbs fruits : List String) (k₁ k₂ : Nat) : Option String :=
  if !carbs.isEmpty && !fruits.isEmpty then
    match randomChoice k₁ carbs, randomChoice k₂ fruits with
    | some c, some f => some ("🍞 " ++ c ++ " + 🍎 " ++ f)
    | _, _ => none
  else some ""

/-- The Lunch/Dinner slot: carb + protein + vegetable if all three
categories are present, otherwise blank. -/
def slotMain (carbs proteins vegs : List String) (k₁ k₂ k₃ : Nat) : Option String :=
  if !carbs.isEmpty && !proteins.isEmpty && !vegs.isEmpty then
    match randomChoice k₁ carbs, randomChoice k₂ proteins, randomChoice k₃ vegs with
    | some c, some p, some v => some ("🍞 " ++ c ++ " + 🍗 " ++ p ++ " + 🥦 " ++ v)
    | _, _, _ => none
  else some ""

/-- The Snack slot: a fruit if the category is present, otherwise blank. -/
def slotSnack (fruits : List String) (k : Nat) : Option String :=
  if !fruits.isEmpty then
    match randomChoice k fruits with
    | some f => some ("🍎 " ++ f)
    | none => none
  else some ""

/-- `lf[lf['Category']==cat]['Food'].tolist()`. -/
def foodsInCategory (lf : List Row) (cat : String) : List String :=
  (lf.filter (fun r => r.Category == cat)).map Row.Food

/-- `app.py` lines 139–150: build one day's four meal slots from the
filtered frame; `p` supplies the index of each of the nine possible
`random.choice` draws. -/
def generate_day_meal (lf : List Row) (p : Nat → Nat) : Option DayMeal :=
  let carbs := foodsInCategory lf "Carbohydrates"
  let proteins := foodsInCategory lf "Proteins"
  let vegs := foodsInCategory lf "Vegetables"
  let fruits := foodsInCategory lf "Fruits"
  match slotBreakfast carbs fruits (p 0) (p 1),
        slotMain carbs proteins vegs (p 2) (p 3) (p 4),
        slotMain carbs proteins vegs (p 5) (p 6) (p 7),
        slotSnack fruits (p 8) with
  | some b, some l, some d, some s => some ⟨b, l, d, s⟩
  | _, _, _, _ => none

/-- `app.py` lines 152–156: one plan entry per `i in range(7)`, keyed by
`today + i` days (`pd.Timestamp.now().date()` is modelled as the fixed
day number `today`); `p i` is the index stream for day `i`. -/
def mkPlan (today : Nat) (lf : List Row) (p : Nat → Nat → Nat) :
    List (Nat × Option DayMeal) :=
  (List.range 7).map (fun i => (today + i, generate_day_meal lf (p i)))

/-! ### The daily-score recomputation -/

/-- `v.split(' ', 1)[1]`: everything after the first space; `none` models
the `IndexError` raised when the string has no space. -/
def afterFirstSpace : List Char → Option (List Char)
  | [] => none
  | c :: l => if c = ' ' then some l else afterFirstSpace l

/-- Strip the leading icon of a slot text, as `v.split(' ', 1)[1]` does. -/
def stripIcon (v : String) : Option String :=
  (afterFirstSpace v.data).map List.asString

/-- Python's `s.split(' + ')`: split on each non-overlapping occurrence,
left to right; the empty string yields `[""]`. -/
def splitPlus : List Char → List (List Char)
  | [] => [[]]
  | ' ' :: '+' :: ' ' :: rest => [] :: splitPlus rest
  | c :: rest =>
    match splitPlus rest with
    | [] => [[c]]
    | t :: ts => (c :: t) :: ts

/-- Python's `' + '.join(parts)`. -/
def joinPlus : List String → String
  | [] => ""
  | [p] => p
  | p :: rest => p ++ " + " ++ joinPlus rest

/-- The slot texts of a day, in the dict's insertion order. -/
def slotTexts (d : DayMeal) : List String :=
  [d.Breakfast, d.Lunch, d.Dinner, d.Snack]

/-- `app.py` line 164: `' + '.join([v.split(' ',1)[1] for v in
day_meals.values() if v]).split(' + ')`. -/
def foodTokens (d : DayMeal) : Option (List String) := do
  let parts ← ((slotTexts d).filter (fun v => v ≠ "")).mapM stripIcon
  pure ((splitPlus (joinPlus parts).data).map List.asString)

/-- `app.py` line 165: the Anti_Inflam total of the filtered rows whose
Food is among the tokens. -/
def sumScores (lf : List Row) (tokens : List String) : Rat :=
  ((lf.filter (fun r => tokens.contains r.Food)).map Row.Anti_Inflam).sum

/-- `app.py` lines 164–166: one day's reported average score. -/
def dailyScore (lf : List Row) (d : DayMeal) : Option Rat := do
  let tokens ← foodTokens d
  pure (if !tokens.isEmpty then sumScores lf tokens / (tokens.length : Rat) else 0)

/-! ### The script's store of dataframes -/

/-- A dataframe cell of the running script: the base table, an iconed
frame, the per-region aggregate, or the plan table. -/
inductive Cell where
  | base (rows : List Row)
  | iconed (rows : List (Row × String))
  | agg (rows : List (String × Nat × String))
  | planT (p : List (Nat × Option DayMeal))

/-- The dataframe-creating and -mutating steps of `app.py`, run on a heap
of cells; cell 0 is `df`.  `df[mask]`, `.copy()`, `sort_values` and
`groupby(...).agg(...)` allocate fresh cells; the two column assignments
(`filtered_df['Icon'] = ...`, `top_foods['Food'] = ...`) write their own
cell in place. -/
def runScript (df0 : List Row) (selR selC : List String) (q : String)
    (today : Nat) (p : Nat → Nat → Nat) : List Cell :=
  let s0 := [Cell.base df0]
  let fr := filteredDf df0 selR selC q
  let s1 := s0 ++ [Cell.base fr]
  let s2 := s1 ++ [Cell.base fr]
  let fi := addIconColumn fr
  let s3 := s2.set 2 (Cell.iconed fi)
  let s4 := s3 ++ [Cell.iconed (sortByFood fi)]
  let tf := (sortByScoreDesc fi).take 10
  let s5 := s4 ++ [Cell.iconed tf]
  let s6 := s5.set 4 (Cell.iconed (prependIconToFood tf))
  let s7 := s6 ++ [Cell.agg (region_df (fi.map Prod.fst))]
  let s8 := s7 ++ [Cell.planT (mkPlan today (fi.map Prod.fst) p)]
  s8

/-! ## Lemmas about the query model -/

theorem matchAt_lit (ql : List Char) : ∀ l : List Char,
    matchAt (ql.map RAtom.lit) l = true ↔
      ql.map Char.toLower <+: l.map Char.toLower := by
  induction ql with
  | nil => intro l; simp [matchAt]
  | cons a ql ih =>
    intro l
    cases l with
    | nil => simp [matchAt]
    | cons c l =>
      simp [matchAt, atomMatch, ih l, List.cons_prefix_cons, Bool.and_eq_true]

theorem reSearch_lit (ql : List Char) : ∀ l : List Char,
    reSearch (ql.map RAtom.lit) l = true ↔
      ql.map Char.toLower <:+: l.map Char.toLower := by
  intro l
  induction l with
  | nil =>
    simp [reSearch, matchAt_lit, List.prefix_nil, List.infix_nil]
  | cons c l ih =>
    simp only [reSearch, Bool.or_eq_true, matchAt_lit, ih, List.map_cons]
    rw [List.infix_cons_iff]

theorem isSubstr_iff (n : List Char) : ∀ l : List Char,
    isSubstr n l = true ↔ n <:+: l := by
  intro l
  induction l with
  | nil =>
    simp only [isSubstr, List.isEmpty_eq_true]
    exact ⟨fun h => h ▸ List.infix_rfl, fun h => List.eq_nil_of_infix_nil h⟩
  | cons c l ih =>
    simp only [isSubstr, Bool.or_eq_true, List.isPrefixOf_iff_prefix, ih,
      List.infix_cons_iff]

theorem parsePat_noDot (q : String) (h : ∀ c ∈ q.data, c ≠ '.') :
    parsePat q = q.data.map RAtom.lit := by
  unfold parsePat
  exact List.map_congr_left (fun c hc => if_neg (h c hc))

/-- On metacharacter-free queries, the code's regex search agrees with the
spec's case-insensitive substring test. -/
theorem pyContainsCI_eq_containsCI (s q : String) (hq : noRegexMeta q = true) :
    pyContainsCI s q = containsCI s q := by
  have hdot : ∀ c ∈ q.data, c ≠ '.' := by
    intro c hc
    have := (List.all_eq_true.mp hq) c hc
    simp only [isRegexMetaChar, Bool.not_eq_eq_eq_not, Bool.not_true] at this
    intro hcd
    subst hcd
    simp at this
  have h1 : pyContainsCI s q = true ↔ containsCI s q = true := by
    unfold pyContainsCI containsCI
    rw [parsePat_noDot q hdot, reSearch_lit, isSubstr_iff]
  cases hp : pyContainsCI s q <;> cases hc : containsCI s q <;>
    simp_all

theorem reSearch_nil_pat : ∀ l : List Char, reSearch [] l = true := by
  intro l
  cases l <;> simp [reSearch, matchAt]

/-- The empty query matches every string (both in the code's regex model
and in the spec's substring reading). -/
theorem pyContainsCI_empty (s : String) : pyContainsCI s "" = true := by
  unfold pyContainsCI parsePat
  simpa using reSearch_nil_pat s.data

theorem containsCI_empty (s : String) : containsCI s "" = true := by
  unfold containsCI
  rw [isSubstr_iff]
  simp

/-- C1, counterexample: the filter passes the query to
`Series.str.contains` with its default `regex=True`, so the query `"."`
(not a substring of `"ab"` or `"cd"`) nevertheless matches the row — the
claimed substring characterisation of membership fails. -/
theorem C1_counterexample :
    (⟨"ab", "C", "R", 1, "cd"⟩ : Row) ∈
        filteredDf [⟨"ab", "C", "R", 1, "cd"⟩] ["R"] ["C"] "."
      ∧ ¬(containsCI "ab" "." = true ∨ containsCI "cd" "." = true) := by
  decide

/-- C1 (amended): for queries free of regex metacharacters, a row is in
the filter's output iff its Region and Category are selected and its Food
or Notes contains the query as a case-insensitive substring; the empty
query matches every row passing the region and category tests; an empty
region or category selection yields an empty result.  (For general
queries the code matches the query as a case-insensitive regular
expression instead of a substring.) -/
theorem C1_filter_membership (db : List Row) (selR selC : List String) (q : String)
    (hq : noRegexMeta q = true) :
    (∀ r : Row, r ∈ filteredDf db selR selC q ↔
      r ∈ db ∧ r.Region ∈ selR ∧ r.Category ∈ selC ∧
        (containsCI r.Food q = true ∨ containsCI r.Notes q = true))
    ∧ (∀ r : Row, r ∈ db → r.Region ∈ selR → r.Category ∈ selC →
        r ∈ filteredDf db selR selC "")
    ∧ (selR = [] ∨ selC = [] → filteredDf db selR selC q = []) := by
  refine ⟨?_, ?_, ?_⟩
  · intro r
    simp only [filteredDf, List.mem_filter, Bool.and_eq_true, Bool.or_eq_true,
      pyContainsCI_eq_containsCI _ _ hq]
    simp [and_assoc]
  · intro r hr h1 h2
    simp only [filteredDf, List.mem_filter, Bool.and_eq_true, Bool.or_eq_true]
    exact ⟨hr, by simp [h1, h2, pyContainsCI_empty]⟩
  · rintro (rfl | rfl) <;> simp [filteredDf]

/-- Witness for C1 at a one-row table and the query `"ric"`. -/
theorem C1_filter_membership_witness :
    noRegexMeta "ric" = true ∧
    ((∀ r : Row, r ∈ filteredDf [⟨"Rice", "Carbohydrates", "Nigeria", 6, "good"⟩]
          ["Nigeria"] ["Carbohydrates"] "ric" ↔
        r ∈ [⟨"Rice", "Carbohydrates", "Nigeria", 6, "good"⟩] ∧
          r.Region ∈ ["Nigeria"] ∧ r.Category ∈ ["Carbohydrates"] ∧
          (containsCI r.Food "ric" = true ∨ containsCI r.Notes "ric" = true))
      ∧ (∀ r : Row, r ∈ [⟨"Rice", "Carbohydrates", "Nigeria", 6, "good"⟩] →
          r.Region ∈ ["Nigeria"] → r.Category ∈ ["Carbohydrates"] →
          r ∈ filteredDf [⟨"Rice", "Carbohydrates", "Nigeria", 6, "good"⟩]
            ["Nigeria"] ["Carbohydrates"] "")
      ∧ (["Nigeria"] = [] ∨ ["Carbohydrates"] = [] →
          filteredDf [⟨"Rice", "Carbohydrates", "Nigeria", 6, "good"⟩]
            ["Nigeria"] ["Carbohydrates"] "ric" = [])) :=
  ⟨by decide,
    C1_filter_membership [⟨"Rice", "Carbohydrates", "Nigeria", 6, "good"⟩]
      ["Nigeria"] ["Carbohydrates"] "ric" (by decide)⟩

/-! ## Full-selection identity and the empty-set average -/

theorem mem_uniqueAux (a : String) : ∀ (l seen : List String),
    a ∈ uniqueAux seen l ↔ a ∈ l ∧ a ∉ seen := by
  intro l
  induction l with
  | nil => intro seen; simp [uniqueAux]
  | cons x xs ih =>
    intro seen
    by_cases hx : x ∈ seen
    · rw [uniqueAux, if_pos hx, ih]
      simp only [List.mem_cons]
      constructor
      · rintro ⟨h1, h2⟩; exact ⟨Or.inr h1, h2⟩
      · rintro ⟨h1 | h1, h2⟩
        · exact absurd (h1 ▸ hx) h2
        · exact ⟨h1, h2⟩
    · rw [uniqueAux, if_neg hx]
      simp only [List.mem_cons, ih]
      constructor
      · rintro (rfl | ⟨h1, h2⟩)
        · exact ⟨Or.inl rfl, hx⟩
        · exact ⟨Or.inr h1, fun hs => h2 (Or.inr hs)⟩
      · rintro ⟨rfl | h1, h2⟩
        · exact Or.inl rfl
        · by_cases hax : a = x
          · exact Or.inl hax
          · exact Or.inr ⟨h1, fun hs => hs.elim hax h2⟩

theorem mem_uniqueFirst {a : String} {l : List String} :
    a ∈ uniqueFirst l ↔ a ∈ l := by
  rw [uniqueFirst, mem_uniqueAux]
  simp

/-- C5: filtering with the full region selection, the full category
selection and the empty query returns the dataset unchanged. -/
theorem C5_full_selection_identity (db : List Row) :
    filteredDf db (regionsOf db) (categoriesOf db) "" = db := by
  unfold filteredDf
  rw [List.filter_eq_self]
  intro r hr
  have h1 : r.Region ∈ regionsOf db := by
    rw [regionsOf, List.mem_insertionSort, mem_uniqueFirst]
    exact List.mem_map_of_mem Row.Region hr
  have h2 : r.Category ∈ categoriesOf db := by
    rw [categoriesOf, List.mem_insertionSort, mem_uniqueFirst]
    exact List.mem_map_of_mem Row.Category hr
  simp [h1, h2, pyContainsCI_empty]

/-- C6: when the filtered set is empty, the metric card's average
Anti_Inflam score is 0 (the guard `if len(filtered_df)` takes the else
branch; nothing is raised). -/
theorem C6_avg_empty (db : List Row) (selR selC : List String) (q : String)
    (h : filteredDf db selR selC q = []) :
    avg_score (filteredDf db selR selC q) = 0 := by
  rw [h]
  rfl

/-- Witness for C6: a one-row table filtered with no region selected. -/
theorem C6_avg_empty_witness :
    filteredDf [⟨"Rice", "Carbohydrates", "Nigeria", 6, "good"⟩] [] ["Carbohydrates"] "" = []
    ∧ avg_score (filteredDf [⟨"Rice", "Carbohydrates", "Nigeria", 6, "good"⟩]
        [] ["Carbohydrates"] "") = 0 :=
  ⟨by decide,
    C6_avg_empty [⟨"Rice", "Carbohydrates", "Nigeria", 6, "good"⟩] [] ["Carbohydrates"] ""
      (by decide)⟩

/-! ## Plan shape -/

/-- C2: a generated plan has exactly 7 entries, keyed by the 7 consecutive
calendar days starting today (the clock is modelled as the fixed day
number `today`, so the dates are strictly increasing and consecutive). -/
theorem C2_plan_shape (today : Nat) (lf : List Row) (p : Nat → Nat → Nat) :
    (mkPlan today lf p).length = 7 ∧
    (mkPlan today lf p).map Prod.fst =
      [today, today + 1, today + 2, today + 3, today + 4, today + 5, today + 6] := by
  constructor
  · simp [mkPlan]
  · simp [mkPlan, List.range_succ]

/-! ## Totality of the day generator and blank slots -/

theorem randomChoice_isSome (k : Nat) (l : List String) (h : l ≠ []) :
    (randomChoice k l).isSome := by
  unfold randomChoice
  have hlen : 0 < l.length := List.length_pos.mpr h
  rw [List.getElem?_eq_getElem (Nat.mod_lt k hlen)]
  rfl

theorem slotBreakfast_isSome (carbs fruits : List String) (k₁ k₂ : Nat) :
    (slotBreakfast carbs fruits k₁ k₂).isSome := by
  unfold slotBreakfast
  split
  · next h =>
    have hc : carbs ≠ [] := by
      simp only [Bool.and_eq_true, Bool.not_eq_eq_eq_not, Bool.not_true,
        List.isEmpty_eq_false] at h
      exact h.1
    have hf : fruits ≠ [] := by
      simp only [Bool.and_eq_true, Bool.not_eq_eq_eq_not, Bool.not_true,
        List.isEmpty_eq_false] at h
      exact h.2
    obtain ⟨c, hc'⟩ := Option.isSome_iff_exists.mp (randomChoice_isSome k₁ carbs hc)
    obtain ⟨f, hf'⟩ := Option.isSome_iff_exists.mp (randomChoice_isSome k₂ fruits hf)
    rw [hc', hf']
    rfl
  · rfl

theorem slotMain_isSome (carbs proteins vegs : List String) (k₁ k₂ k₃ : Nat) :
    (slotMain carbs proteins vegs k₁ k₂ k₃).isSome := by
  unfold slotMain
  split
  · next h =>
    simp only [Bool.and_eq_true, Bool.not_eq_eq_eq_not, Bool.not_true,
      List.isEmpty_eq_false] at h
    obtain ⟨c, hc'⟩ := Option.isSome_iff_exists.mp (randomChoice_isSome k₁ carbs h.1.1)
    obtain ⟨p, hp'⟩ := Option.isSome_iff_exists.mp (randomChoice_isSome k₂ proteins h.1.2)
    obtain ⟨v, hv'⟩ := Option.isSome_iff_exists.mp (randomChoice_isSome k₃ vegs h.2)
    rw [hc', hp', hv']
    rfl
  · rfl

theorem slotSnack_isSome (fruits : List String) (k : Nat) :
    (slotSnack fruits k).isSome := by
  unfold slotSnack
  split
  · next h =>
    simp only [Bool.not_eq_eq_eq_not, Bool.not_true, List.isEmpty_eq_false] at h
    obtain ⟨f, hf'⟩ := Option.isSome_iff_exists.mp (randomChoice_isSome k fruits h)
    rw [hf']
    rfl
  · rfl

/-- C9: `generate_day_meal` is total — every `random.choice` is guarded by
the truthiness test of its list, so the generator succeeds on every
input frame, including an empty one. -/
theorem C9_generate_day_meal_total (lf : List Row) (p : Nat → Nat) :
    (generate_day_meal lf p).isSome := by
  simp only [generate_day_meal]
  obtain ⟨b, hb⟩ := Option.isSome_iff_exists.mp
    (slotBreakfast_isSome (foodsInCategory lf "Carbohydrates")
      (foodsInCategory lf "Fruits") (p 0) (p 1))
  obtain ⟨l, hl⟩ := Option.isSome_iff_exists.mp
    (slotMain_isSome (foodsInCategory lf "Carbohydrates")
      (foodsInCategory lf "Proteins") (foodsInCategory lf "Vegetables") (p 2) (p 3) (p 4))
  obtain ⟨d, hd⟩ := Option.isSome_iff_exists.mp
    (slotMain_isSome (foodsInCategory lf "Carbohydrates")
      (foodsInCategory lf "Proteins") (foodsInCategory lf "Vegetables") (p 5) (p 6) (p 7))
  obtain ⟨s, hs⟩ := Option.isSome_iff_exists.mp
    (slotSnack_isSome (foodsInCategory lf "Fruits") (p 8))
  rw [hb, hl, hd, hs]
  rfl

theorem slotBreakfast_absent (carbs fruits : List String) (k₁ k₂ : Nat)
    (h : carbs = [] ∨ fruits = []) :
    slotBreakfast carbs fruits k₁ k₂ = some "" := by
  unfold slotBreakfast
  rcases h with rfl | rfl <;> simp

theorem slotMain_absent (carbs proteins vegs : List String) (k₁ k₂ k₃ : Nat)
    (h : carbs = [] ∨ proteins = [] ∨ vegs = []) :
    slotMain carbs proteins vegs k₁ k₂ k₃ = some "" := by
  unfold slotMain
  rcases h with rfl | rfl | rfl <;> simp

theorem slotSnack_absent (fruits : List String) (k : Nat) (h : fruits = []) :
    slotSnack fruits k = some "" := by
  unfold slotSnack
  subst h
  simp

/-- C4: any required category missing from the filtered frame leaves the
corresponding meal slot blank (and the generator still succeeds):
Breakfast needs Carbohydrates and Fruits, Lunch and Dinner need
Carbohydrates, Proteins and Vegetables, Snack needs Fruits. -/
theorem C4_blank_slots (lf : List Row) (p : Nat → Nat) (d : DayMeal)
    (h : generate_day_meal lf p = some d) :
    ((foodsInCategory lf "Carbohydrates" = [] ∨ foodsInCategory lf "Fruits" = []) →
      d.Breakfast = "")
    ∧ ((foodsInCategory lf "Carbohydrates" = [] ∨ foodsInCategory lf "Proteins" = [] ∨
        foodsInCategory lf "Vegetables" = []) → d.Lunch = "" ∧ d.Dinner = "")
    ∧ (foodsInCategory lf "Fruits" = [] → d.Snack = "") := by
  simp only [generate_day_meal] at h
  rcases hb : slotBreakfast (foodsInCategory lf "Carbohydrates")
      (foodsInCategory lf "Fruits") (p 0) (p 1) with _ | b <;>
    rcases hl : slotMain (foodsInCategory lf "Carbohydrates")
      (foodsInCategory lf "Proteins") (foodsInCategory lf "Vegetables")
      (p 2) (p 3) (p 4) with _ | l <;>
    rcases hd : slotMain (foodsInCategory lf "Carbohydrates")
      (foodsInCategory lf "Proteins") (foodsInCategory lf "Vegetables")
      (p 5) (p 6) (p 7) with _ | dn <;>
    rcases hs : slotSnack (foodsInCategory lf "Fruits") (p 8) with _ | s <;>
    rw [hb, hl, hd, hs] at h <;> simp only [Option.some.injEq] at h <;> try exact absurd h (by simp)
  subst h
  refine ⟨?_, ?_, ?_⟩
  · intro habs
    have := slotBreakfast_absent _ _ (p 0) (p 1) habs
    rw [this] at hb
    cases hb
    rfl
  · intro habs
    have h1 := slotMain_absent _ _ _ (p 2) (p 3) (p 4) habs
    have h2 := slotMain_absent _ _ _ (p 5) (p 6) (p 7) habs
    rw [h1] at hl
    rw [h2] at hd
    cases hl
    cases hd
    exact ⟨rfl, rfl⟩
  · intro habs
    have := slotSnack_absent _ (p 8) habs
    rw [this] at hs
    cases hs
    rfl

/-- Witness for C4 on the empty frame: every category is absent and all
four slots come back blank. -/
theorem C4_blank_slots_witness :
    generate_day_meal [] (fun _ => 0) = some ⟨"", "", "", ""⟩
    ∧ (⟨"", "", "", ""⟩ : DayMeal).Breakfast = ""
    ∧ (⟨"", "", "", ""⟩ : DayMeal).Lunch = ""
    ∧ (⟨"", "", "", ""⟩ : DayMeal).Dinner = ""
    ∧ (⟨"", "", "", ""⟩ : DayMeal).Snack = "" :=
  ⟨rfl,
    (C4_blank_slots [] (fun _ => 0) ⟨"", "", "", ""⟩ rfl).1 (Or.inl rfl),
    ((C4_blank_slots [] (fun _ => 0) ⟨"", "", "", ""⟩ rfl).2.1 (Or.inl rfl)).1,
    ((C4_blank_slots [] (fun _ => 0) ⟨"", "", "", ""⟩ rfl).2.1 (Or.inl rfl)).2,
    (C4_blank_slots [] (fun _ => 0) ⟨"", "", "", ""⟩ rfl).2.2 rfl⟩

/-! ## Per-region aggregation -/

/-- C7: the bar-chart aggregation has, for each region present in the
filtered set, exactly one kind of entry: the count of that region's rows
and the `", "`-concatenation of their Notes, in row order. -/
theorem C7_region_aggregation (l : List Row) (r : Row) (h : r ∈ l) :
    (r.Region, (l.filter (fun x => x.Region == r.Region)).length,
      String.intercalate ", " ((l.filter (fun x => x.Region == r.Region)).map Row.Notes))
      ∈ region_df l
    ∧ ∀ g n s, (g, n, s) ∈ region_df l →
        n = (l.filter (fun x => x.Region == g)).length ∧
        s = String.intercalate ", " ((l.filter (fun x => x.Region == g)).map Row.Notes) := by
  constructor
  · unfold region_df
    apply List.mem_map.mpr
    refine ⟨r.Region, ?_, rfl⟩
    rw [List.mem_insertionSort, mem_uniqueFirst]
    exact List.mem_map_of_mem Row.Region h
  · intro g n s hm
    unfold region_df at hm
    obtain ⟨g', hg', heq⟩ := List.mem_map.mp hm
    cases heq
    exact ⟨rfl, rfl⟩

/-- Witness for C7 at a two-row, one-region table. -/
theorem C7_region_aggregation_witness :
    (⟨"A", "c1", "R1", 1, "n1"⟩ : Row) ∈
      [(⟨"A", "c1", "R1", 1, "n1"⟩ : Row), ⟨"B", "c2", "R1", 2, "n2"⟩]
    ∧ (("R1", 2, "n1, n2") ∈
        region_df [(⟨"A", "c1", "R1", 1, "n1"⟩ : Row), ⟨"B", "c2", "R1", 2, "n2"⟩]
      ∧ ∀ g n s,
          (g, n, s) ∈ region_df [(⟨"A", "c1", "R1", 1, "n1"⟩ : Row), ⟨"B", "c2", "R1", 2, "n2"⟩] →
          n = ([(⟨"A", "c1", "R1", 1, "n1"⟩ : Row), ⟨"B", "c2", "R1", 2, "n2"⟩].filter
                (fun x => x.Region == g)).length ∧
          s = String.intercalate ", "
                (([(⟨"A", "c1", "R1", 1, "n1"⟩ : Row), ⟨"B", "c2", "R1", 2, "n2"⟩].filter
                  (fun x => x.Region == g)).map Row.Notes)) := by
  refine ⟨by decide, ?_⟩
  have h := C7_region_aggregation
    [(⟨"A", "c1", "R1", 1, "n1"⟩ : Row), ⟨"B", "c2", "R1", 2, "n2"⟩]
    ⟨"A", "c1", "R1", 1, "n1"⟩ (by decide)
  refine ⟨?_, h.2⟩
  have h1 := h.1
  simpa using h1

/-! ## The source dataset is never written -/

/-- C8: running every dataframe-creating and dataframe-mutating step of
the script leaves cell 0 — the source dataset `df` — exactly as it
started: the filter and the sorts allocate fresh cells, and the two
in-place column assignments write only those fresh cells. -/
theorem C8_source_df_unchanged (df0 : List Row) (selR selC : List String) (q : String)
    (today : Nat) (p : Nat → Nat → Nat) :
    (runScript df0 selR selC q today p).head? = some (Cell.base df0) := rfl

/-! ## The daily-score token list -/

theorem splitPlus_ne_nil : ∀ l : List Char, splitPlus l ≠ [] := by
  intro l
  induction l using splitPlus.induct with
  | case1 => simp [splitPlus]
  | case2 rest ih => simp [splitPlus]
  | case3 c rest h hnil ih => exact absurd hnil ih
  | case4 c rest h t ts hcons ih =>
    have : splitPlus (c :: rest) = (c :: t) :: ts := by
      rw [splitPlus]
      · rw [hcons]
      · exact h
    simp [this]

/-- C10: the token list of a day is never empty — joining the non-blank
slots and re-splitting yields `[""]` when every slot is blank — so the
division never divides by zero, and an all-blank day (over a frame with
no empty food name) scores 0. -/
theorem C10_tokens_nonempty (d : DayMeal) (tokens : List String)
    (h : foodTokens d = some tokens) :
    tokens ≠ [] ∧
    (d.Breakfast = "" → d.Lunch = "" → d.Dinner = "" → d.Snack = "" →
      tokens = [""] ∧ ∀ lf : List Row, (∀ r ∈ lf, r.Food ≠ "") →
        dailyScore lf d = some 0) := by
  constructor
  · unfold foodTokens at h
    cases hm : ((slotTexts d).filter (fun v => v ≠ "")).mapM stripIcon with
    | none => rw [hm] at h; simp at h
    | some parts =>
      rw [hm] at h
      simp only [Option.bind_eq_bind, Option.some_bind, Option.pure_def,
        Option.some.injEq] at h
      subst h
      simp [splitPlus_ne_nil]
  · intro h1 h2 h3 h4
    obtain ⟨B, L, D, S⟩ := d
    simp only at h1 h2 h3 h4
    subst h1; subst h2; subst h3; subst h4
    have hft : foodTokens ⟨"", "", "", ""⟩ = some [""] := rfl
    rw [hft, Option.some.injEq] at h
    subst h
    refine ⟨rfl, ?_⟩
    intro lf hlf
    have hfil : lf.filter (fun r => decide (r.Food = "")) = [] := by
      rw [List.filter_eq_nil_iff]
      intro r hr
      simpa using hlf r hr
    unfold dailyScore
    rw [hft]
    simp [sumScores, hfil]

/-- Witness for C10 on the all-blank day. -/
theorem C10_tokens_nonempty_witness :
    foodTokens ⟨"", "", "", ""⟩ = some [""]
    ∧ ([""] : List String) ≠ []
    ∧ dailyScore [] ⟨"", "", "", ""⟩ = some 0 :=
  ⟨rfl, (C10_tokens_nonempty ⟨"", "", "", ""⟩ [""] rfl).1,
    ((C10_tokens_nonempty ⟨"", "", "", ""⟩ [""] rfl).2 rfl rfl rfl rfl).2 []
      (by intro r hr; cases hr)⟩

/-! ## The daily-score recomputation at a concrete plan day -/

/-- C3, evaluated at its failing input: with the filtered set holding the
carbohydrate Rice and the fruit Mango (both of score 6), the generated day
is Breakfast `"🍞 Rice + 🍎 Mango"`, Snack `"🍎 Mango"`; stripping only the
first icon of each slot leaks the token `"🍎 Mango"`, whose lookup finds
no food, so the code reports (6+6)/3 = 4 — not the average 6 of the three
chosen foods' scores that the spec describes. -/
theorem C3_daily_score_eval :
    generate_day_meal
        [⟨"Rice", "Carbohydrates", "R", 6, "n"⟩, ⟨"Mango", "Fruits", "R", 6, "n"⟩]
        (fun _ => 0)
      = some ⟨"🍞 Rice + 🍎 Mango", "", "", "🍎 Mango"⟩
    ∧ foodTokens ⟨"🍞 Rice + 🍎 Mango", "", "", "🍎 Mango"⟩
      = some ["Rice", "🍎 Mango", "Mango"]
    ∧ dailyScore
        [⟨"Rice", "Carbohydrates", "R", 6, "n"⟩, ⟨"Mango", "Fruits", "R", 6, "n"⟩]
        ⟨"🍞 Rice + 🍎 Mango", "", "", "🍎 Mango"⟩
      = some 4
    ∧ ((6 : Rat) + 6 + 6) / 3 = 6 := by
  refine ⟨by decide, by decide, ?_, by norm_num⟩
  have hf : ([⟨"Rice", "Carbohydrates", "R", 6, "n"⟩,
      ⟨"Mango", "Fruits", "R", 6, "n"⟩] : List Row).filter
      (fun r => (["Rice", "🍎 Mango", "Mango"] : List String).contains r.Food)
      = [⟨"Rice", "Carbohydrates", "R", 6, "n"⟩, ⟨"Mango", "Fruits", "R", 6, "n"⟩] := by
    decide
  have hft : foodTokens ⟨"🍞 Rice + 🍎 Mango", "", "", "🍎 Mango"⟩
      = some ["Rice", "🍎 Mango", "Mango"] := by decide
  unfold dailyScore
  rw [hft]
  simp only [Option.bind_eq_bind, Option.some_bind, Option.pure_def, Option.some.injEq]
  norm_num [sumScores, hf]
